import Mathlib

/-!
Verification of the session-orchestration core of the interview-ai repository:
the circuit-breaker resilience layer
(`backends/interview-agents-python/common/circuit_breaker.py`), the interview
phase state machine and intervention engine
(`agents/python/orchestrator_agent.py` and
`backends/interview-agents-python/agents/orchestrator.py`), and the
complexity-to-reasoning-strategy mapping
(`backends/interview-agents-python/common/config.py`).

Python strings are modelled as Lean `String`; the Python substring test
`needle in hay` is `pyIn`, and `str.lower()` is `pyLower` (the inputs under
study are ASCII, where the two agree).  Millisecond timestamps are `Int`,
counters are `Nat`, and the float scores compared against thresholds are `ℚ`.
-/

/-- ASCII lowering of one character, as CPython does for ASCII input. -/
def pyLowerChar (c : Char) : Char :=
  if 'A' ≤ c ∧ c ≤ 'Z' then Char.ofNat (c.toNat + 32) else c

/-- Model of Python `str.lower()` on ASCII strings. -/
def pyLower (s : String) : String :=
  ⟨s.data.map pyLowerChar⟩

/-- `listPrefixOf n h` is true iff `n` is a leading segment of `h`. -/
def listPrefixOf : List Char → List Char → Bool
  | [], _ => true
  | _ :: _, [] => false
  | a :: as, b :: bs => a == b && listPrefixOf as bs

/-- `listSubOf n h` is true iff `n` occurs contiguously inside `h`. -/
def listSubOf (needle : List Char) : List Char → Bool
  | [] => listPrefixOf needle []
  | hay@(_ :: rest) => listPrefixOf needle hay || listSubOf needle rest

/-- Model of the Python substring test `needle in hay`. -/
def pyIn (needle hay : String) : Bool :=
  listSubOf needle.data hay.data

/-! ## Circuit breaker (`common/circuit_breaker.py`) -/

/-- `CircuitState` enum. -/
inductive CircuitState where
  | CLOSED
  | OPEN
  | HALF_OPEN
deriving DecidableEq, Repr

/-- `CircuitBreakerConfig` dataclass; times are in milliseconds. -/
structure CircuitBreakerConfig where
  failure_threshold : Nat
  reset_timeout : Int
  half_open_requests : Nat
  monitoring_window : Int
deriving DecidableEq, Repr

/-- The mutable state of one `CircuitBreaker` instance, merging the breaker
fields set in `__init__` with the `CircuitBreakerMetrics` dataclass. -/
structure CBState where
  state : CircuitState
  failures : Nat
  last_failure_time : Int
  half_open_count : Nat
  failure_window : List Int
  total_requests : Nat
  success_requests : Nat
  failure_requests : Nat
  timeouts : Nat
  circuit_open_time : Option Int
  consecutive_failures : Nat
deriving DecidableEq, Repr

/-- A freshly constructed breaker: CLOSED with all counters zero. -/
def initBreaker : CBState :=
  { state := .CLOSED
    failures := 0
    last_failure_time := 0
    half_open_count := 0
    failure_window := []
    total_requests := 0
    success_requests := 0
    failure_requests := 0
    timeouts := 0
    circuit_open_time := none
    consecutive_failures := 0 }

/-- `_clean_failure_window`: drop entries at or before `now - monitoring_window`. -/
def cleanFailureWindow (cfg : CircuitBreakerConfig) (now : Int) (s : CBState) : CBState :=
  { s with failure_window :=
      s.failure_window.filter (fun t => decide (now - cfg.monitoring_window < t)) }

/-- `_reset`: return to CLOSED, zeroing the failure counters and the window. -/
def resetBreaker (s : CBState) : CBState :=
  { s with state := .CLOSED
           failures := 0
           half_open_count := 0
           failure_window := []
           consecutive_failures := 0
           circuit_open_time := none }

/-- `_on_success`: clear failure counters; in HALF_OPEN count the trial and
reset once the half-open quota is met. -/
def onSuccess (cfg : CircuitBreakerConfig) (now : Int) (s : CBState) : CBState :=
  let s1 := { s with failures := 0
                     success_requests := s.success_requests + 1
                     consecutive_failures := 0 }
  let s2 := cleanFailureWindow cfg now s1
  if s2.state = .HALF_OPEN then
    let s3 := { s2 with half_open_count := s2.half_open_count + 1 }
    if cfg.half_open_requests ≤ s3.half_open_count then resetBreaker s3 else s3
  else s2

/-- `_should_open_circuit`: consecutive failures or recent windowed failures
have reached the threshold. -/
def shouldOpenCircuit (cfg : CircuitBreakerConfig) (s : CBState) : Bool :=
  decide (cfg.failure_threshold ≤ s.consecutive_failures) ||
    decide (cfg.failure_threshold ≤ s.failure_window.length)

/-- `_open_circuit`: open, record the open timestamp, zero the trial counter. -/
def openCircuit (now : Int) (s : CBState) : CBState :=
  { s with state := .OPEN
           circuit_open_time := some now
           half_open_count := 0 }

/-- The bookkeeping part of `_on_failure`, before the opening check. -/
def onFailurePre (cfg : CircuitBreakerConfig) (now : Int) (s : CBState) : CBState :=
  let s1 := { s with failures := s.failures + 1
                     failure_requests := s.failure_requests + 1
                     consecutive_failures := s.consecutive_failures + 1
                     last_failure_time := now
                     failure_window := s.failure_window ++ [now] }
  cleanFailureWindow cfg now s1

/-- `_on_failure`: record the failure, then open the circuit if warranted. -/
def onFailure (cfg : CircuitBreakerConfig) (now : Int) (s : CBState) : CBState :=
  let s1 := onFailurePre cfg now s
  if shouldOpenCircuit cfg s1 then openCircuit now s1 else s1

/-- `_should_attempt_reset`.  Note the Python guard
`if not self.metrics.circuit_open_time` is falsy for both `None` and `0`,
so an open timestamp of exactly `0` never allows a reset attempt. -/
def shouldAttemptReset (cfg : CircuitBreakerConfig) (now : Int) (s : CBState) : Bool :=
  match s.circuit_open_time with
  | none => false
  | some t => if t = 0 then false else decide (cfg.reset_timeout ≤ now - t)

/-- The fail-fast check at the top of `execute`: returns the state after the
OPEN-state handling together with `true` when the call is rejected (fallback
used without attempting the operation). -/
def openPreCheck (cfg : CircuitBreakerConfig) (now : Int) (s : CBState) : CBState × Bool :=
  if s.state = .OPEN then
    if shouldAttemptReset cfg now s then
      ({ s with state := .HALF_OPEN, half_open_count := 0 }, false)
    else (s, true)
  else (s, false)

/-- The observable outcome of the wrapped primary operation for one call:
success, an exception with message `err`, or expiry of the `timeout` bound. -/
inductive OpOutcome where
  | ok
  | fail (err : String)
  | timedOut (timeout_ms : Int)
deriving DecidableEq, Repr

/-- What `execute` hands back to its caller: the operation value, the fallback
value, or a raised exception carrying `msg`. -/
inductive ExecResult where
  | opValue
  | fbValue
  | raisedError (msg : String)
deriving DecidableEq, Repr

/-- The message of the exception raised by `_execute_with_timeout`. -/
def timeoutMessage (ms : Int) : String :=
  "Operation timed out after " ++ toString ms ++ "ms"

/-- The message of the exception raised by `_execute_fallback` when the
fallback itself fails; it embeds only the fallback error. -/
def compositeMessage (fbErr : String) : String :=
  "Both primary operation and fallback failed: " ++ fbErr

/-- `_execute_fallback`: the fallback either yields its value or raises the
composite error.  `fb = none` means the fallback succeeds; `fb = some e`
means it raises `e`. -/
def executeFallbackResult (fb : Option String) : ExecResult :=
  match fb with
  | none => .fbValue
  | some e => .raisedError (compositeMessage e)

/-- The message of the exception seen by `execute`'s handler. -/
def opErrorMessage : OpOutcome → String
  | .ok => ""
  | .fail e => e
  | .timedOut ms => timeoutMessage ms

/-- The timeout counter bump in `_execute_with_timeout`. -/
def recordTimeout (op : OpOutcome) (s : CBState) : CBState :=
  match op with
  | .timedOut _ => { s with timeouts := s.timeouts + 1 }
  | _ => s

/-- `CircuitBreaker.execute`, as a transition on `CBState` driven by the
outcome `op` of the primary operation and the outcome `fb` of the fallback. -/
def execute (cfg : CircuitBreakerConfig) (now : Int) (op : OpOutcome)
    (fb : Option String) (s : CBState) : CBState × ExecResult :=
  let s0 := { s with total_requests := s.total_requests + 1 }
  let pc := openPreCheck cfg now s0
  if pc.2 then (pc.1, executeFallbackResult fb)
  else
    match op with
    | .ok => (onSuccess cfg now pc.1, .opValue)
    | _ =>
      let s1 := recordTimeout op pc.1
      let s2 := onFailure cfg now s1
      if s2.state = .OPEN then (s2, executeFallbackResult fb)
      else (s2, .raisedError (opErrorMessage op))

/-- Run a sequence of `execute` calls, given as (timestamp, operation-outcome)
pairs, threading only the breaker state. -/
def runCalls (cfg : CircuitBreakerConfig) : List (Int × OpOutcome) → CBState → CBState
  | [], s => s
  | (t, op) :: rest, s => runCalls cfg rest (execute cfg t op none s).1

/-- `CircuitBreakerManager.default_config`. -/
def defaultConfig : CircuitBreakerConfig :=
  { failure_threshold := 5
    reset_timeout := 60000
    half_open_requests := 3
    monitoring_window := 300000 }

/-- The failure rate reported by `get_metrics`. -/
def failureRate (s : CBState) : ℚ :=
  (s.failure_requests : ℚ) / ((max s.total_requests 1 : Nat) : ℚ)

/-- The three buckets of `CircuitBreakerManager.get_health_summary`. -/
structure HealthSummary where
  healthy : List String
  degraded : List String
  failed : List String
deriving DecidableEq, Repr

/-- Classification of one breaker in `get_health_summary`. -/
def classifyAdd (acc : HealthSummary) (kv : String × CBState) : HealthSummary :=
  if kv.2.state = .OPEN then { acc with failed := acc.failed ++ [kv.1] }
  else if kv.2.state = .HALF_OPEN ∨ failureRate kv.2 > 1 / 10 then
    { acc with degraded := acc.degraded ++ [kv.1] }
  else { acc with healthy := acc.healthy ++ [kv.1] }

/-- `CircuitBreakerManager.get_health_summary` over the registry's breaker
map, given as an association list in iteration order. -/
def getHealthSummary (breakers : List (String × CBState)) : HealthSummary :=
  breakers.foldl classifyAdd ⟨[], [], []⟩

example : (runCalls defaultConfig
    (List.replicate 5 (1000, OpOutcome.fail "primary failure")) initBreaker).state
    = .OPEN := by decide

/-! ## Interview phase state machine
(`agents/python/orchestrator_agent.py` and
`backends/interview-agents-python/agents/orchestrator.py`) -/

/-- `InterviewState` enum, identical in both orchestrator implementations. -/
inductive InterviewState where
  | CONFIGURING
  | SCOPING
  | ANALYSIS
  | SOLUTIONING
  | METRICS
  | CHALLENGING
  | REPORT_GENERATION
  | END
deriving DecidableEq, Repr

/-- `InterviewStateMachine.valid_transitions` (ADK orchestrator,
`agents/python/orchestrator_agent.py`). -/
def valid_transitions : InterviewState → List InterviewState
  | .CONFIGURING => [.SCOPING]
  | .SCOPING => [.ANALYSIS, .CHALLENGING]
  | .ANALYSIS => [.SOLUTIONING, .CHALLENGING]
  | .SOLUTIONING => [.METRICS, .CHALLENGING]
  | .METRICS => [.CHALLENGING]
  | .CHALLENGING => [.REPORT_GENERATION]
  | .REPORT_GENERATION => [.END]
  | .END => []

/-- `InterviewStateMachine.can_transition`. -/
def can_transition (f t : InterviewState) : Bool :=
  decide (t ∈ valid_transitions f)

/-- `InterviewStateMachine.semantic_triggers`: per-phase association list of
target phase to trigger phrases, in Python dict insertion order. -/
def semantic_triggers : InterviewState → List (InterviewState × List String)
  | .SCOPING =>
      [(.ANALYSIS, ["move on to the users", "user segments", "pain points",
                    "understand the problem"])]
  | .ANALYSIS =>
      [(.SOLUTIONING, ["solution I propose", "recommendation",
                       "feature I would build", "my approach would be"])]
  | .SOLUTIONING =>
      [(.METRICS, ["measure success", "KPIs", "North Star metric",
                   "success metrics"])]
  | _ => []

/-- The scan inside `detect_semantic_transition`: first target whose phrase
list has a member occurring in the (already lowercased) response. -/
def findTriggered (response_lower : String) :
    List (InterviewState × List String) → Option InterviewState
  | [] => none
  | (target, kws) :: rest =>
      if kws.any (fun kw => pyIn kw response_lower) then some target
      else findTriggered response_lower rest

/-- `InterviewStateMachine.detect_semantic_transition`.  The response is
lowercased; the trigger phrases are compared verbatim. -/
def detect_semantic_transition (current : InterviewState) (response : String) :
    Option InterviewState :=
  findTriggered (pyLower response) (semantic_triggers current)

/-- A `state_transitions` history entry of the ADK orchestrator's
`SessionState`; it records the destination phase, timestamp and trigger. -/
structure ADKTransitionRecord where
  state : InterviewState
  timestamp : Int
  trigger : String
deriving DecidableEq, Repr

/-- The phase-related part of the ADK orchestrator's `SessionState`. -/
structure ADKSession where
  current_state : InterviewState
  previous_state : Option InterviewState
  state_transitions : List ADKTransitionRecord
deriving DecidableEq, Repr

/-- `OrchestratorAgent._transition_state` of the ADK orchestrator: commit
only when `can_transition` holds, else leave the session untouched and
return `false`. -/
def adkTransitionState (sess : ADKSession) (new_state : InterviewState)
    (trigger : String) (now : Int) : ADKSession × Bool :=
  if can_transition sess.current_state new_state then
    ({ sess with
        previous_state := some sess.current_state
        current_state := new_state
        state_transitions :=
          sess.state_transitions ++ [⟨new_state, now, trigger⟩] }, true)
  else (sess, false)

/-- `OrchestratorAgent._setup_state_machine` (backend orchestrator,
`backends/interview-agents-python/agents/orchestrator.py`). -/
def backend_state_transitions : InterviewState → List InterviewState
  | .CONFIGURING => [.SCOPING]
  | .SCOPING => [.ANALYSIS, .CHALLENGING]
  | .ANALYSIS => [.SOLUTIONING, .CHALLENGING]
  | .SOLUTIONING => [.METRICS, .CHALLENGING]
  | .METRICS => [.CHALLENGING, .REPORT_GENERATION]
  | .CHALLENGING => [.ANALYSIS, .SOLUTIONING, .REPORT_GENERATION]
  | .REPORT_GENERATION => [.END]
  | .END => []

/-- A backend `state_transitions` history entry: source phase, destination
phase, trigger and timestamp (the elapsed-duration field is not modelled). -/
structure BTransitionRecord where
  from_state : InterviewState
  to_state : InterviewState
  trigger : String
  timestamp : Int
deriving DecidableEq, Repr

/-! ## Intervention engine -/

/-- `InterventionType` enum, identical in both implementations. -/
inductive InterventionType where
  | PREVENT_PREMATURE_SOLUTIONING
  | ENSURE_USER_FOCUS
  | DEMAND_PRIORITIZATION_RATIONALE
  | REQUIRE_MEASURABLE_METRICS
  | HANDLE_SILENCE_OR_CONFUSION
deriving DecidableEq, Repr

/-- An `InterventionDirective` (its supporting-context dict and priority are
not modelled; the rule choice depends only on type and message). -/
structure InterventionDirective where
  itype : InterventionType
  message : String
deriving DecidableEq, Repr

/-- Keyword list of `InterventionEngine._contains_solution_keywords`. -/
def solution_keywords : List String :=
  ["solution", "recommend", "build", "implement", "design"]

/-- Keyword list of `InterventionEngine._contains_user_keywords`. -/
def user_keywords : List String :=
  ["user", "customer", "persona", "audience"]

/-- Keyword list of `InterventionEngine._contains_rationale_keywords`. -/
def rationale_keywords : List String :=
  ["because", "reason", "why", "chose", "decided", "trade-off"]

/-- The shared pattern `any(keyword in response.lower() for keyword in kws)`. -/
def containsAnyKeyword (kws : List String) (response : String) : Bool :=
  kws.any (fun k => pyIn k (pyLower response))

/-- Python `dict.get(key, default)` over a score mapping. -/
def dictGetQ (d : List (String × ℚ)) (k : String) (dflt : ℚ) : ℚ :=
  match d.find? (fun p => p.1 == k) with
  | some p => p.2
  | none => dflt

/-- Message of the ADK premature-solutioning directive. -/
def adkPrematureMessage : String :=
  "That\x27s an interesting idea. Before we dive into solutions, could you first walk me through how you\x27re structuring your overall approach to this problem?"

/-- Message of the ADK ensure-user-focus directive. -/
def adkUserFocusMessage : String :=
  "This is a good start. Could you tell me more about the specific users or customers you are designing this for?"

/-- Message of the ADK demand-rationale directive. -/
def adkRationaleMessage : String :=
  "That sounds like a viable solution. Can you walk me through why you chose this particular solution over other alternatives you may have considered?"

/-- `InterventionEngine.check_gating_conditions` (ADK orchestrator): three
sequential phase-gated rules, first match wins; no rule covers METRICS. -/
def check_gating_conditions (current_state : InterviewState)
    (last_user_response : Option String) (scores : List (String × ℚ)) :
    Option InterventionDirective :=
  let resp := last_user_response.getD ""
  if current_state = .SCOPING ∧ containsAnyKeyword solution_keywords resp = true
      ∧ dictGetQ scores "Problem Definition & Structuring" 0 < 3 then
    some ⟨.PREVENT_PREMATURE_SOLUTIONING, adkPrematureMessage⟩
  else if current_state = .ANALYSIS
      ∧ containsAnyKeyword user_keywords resp = false then
    some ⟨.ENSURE_USER_FOCUS, adkUserFocusMessage⟩
  else if current_state = .SOLUTIONING
      ∧ containsAnyKeyword rationale_keywords resp = false then
    some ⟨.DEMAND_PRIORITIZATION_RATIONALE, adkRationaleMessage⟩
  else none

/-- `AgentName` enum (`common/config.py`). -/
inductive AgentName where
  | ORCHESTRATOR
  | CONTEXT
  | INTERVIEWER
  | EVALUATOR
  | SYNTHESIS
deriving DecidableEq, Repr

/-- `MessageType` enum (`agents/base.py`). -/
inductive MessageType where
  | REQUEST
  | RESPONSE
  | NOTIFICATION
  | ERROR
  | HEARTBEAT
deriving DecidableEq, Repr

/-- One dispatched inter-agent message, reduced to the fields the claims
inspect: recipient, message type and the payload's action/event tag. -/
structure BMessage where
  to_agent : AgentName
  mtype : MessageType
  action : String
deriving DecidableEq, Repr

/-- The phase/intervention-related part of the backend orchestrator's
`SessionContext`. -/
structure BContext where
  current_state : InterviewState
  previous_state : Option InterviewState
  state_transitions : List BTransitionRecord
  scores : List (String × ℚ)
  interventions : List InterventionDirective
  silence_duration : ℚ
  last_user_response : Option String
deriving DecidableEq, Repr

/-- Backend `OrchestratorAgent._transition_state`: validate against the phase
graph; on an illegal edge return the context unchanged, otherwise update the
phases and append one transition record. -/
def bTransitionState (ctx : BContext) (new_state : InterviewState)
    (trigger : String) (now : Int) : BContext :=
  if new_state ∈ backend_state_transitions ctx.current_state then
    { ctx with
        previous_state := some ctx.current_state
        current_state := new_state
        state_transitions := ctx.state_transitions ++
          [⟨ctx.current_state, new_state, trigger, now⟩] }
  else ctx

/-- Premature-solutioning keywords of backend `_check_interventions`. -/
def premature_keywords : List String := ["solution", "implement", "build", "code"]

/-- Prioritization keywords of backend `_check_interventions`. -/
def priority_keywords : List String := ["priority", "important", "first", "order"]

/-- Message of the backend silence intervention. -/
def bSilenceMessage : String :=
  "I notice you\x27ve been quiet. Would you like me to clarify the question or provide a hint?"

/-- Message of the backend premature-solutioning intervention. -/
def bPrematureMessage : String :=
  "Let\x27s take a step back. Before jumping to solutions, can you help me understand the problem requirements and constraints better?"

/-- Message of the backend demand-rationale intervention. -/
def bRationaleMessage : String :=
  "You mentioned priorities. Can you explain the reasoning behind this prioritization?"

/-- Backend `OrchestratorAgent._check_interventions`.  `elapsed_seconds` is
`(datetime.now() - context.start_time).total_seconds()`.  No branch covers
the METRICS phase. -/
def b_check_interventions (ctx : BContext) (user_response : String)
    (elapsed_seconds : ℚ) : List InterventionDirective :=
  let l1 := if ctx.silence_duration > 30 then
      [⟨.HANDLE_SILENCE_OR_CONFUSION, bSilenceMessage⟩] else []
  let l2 := if (ctx.current_state = .SCOPING ∨ ctx.current_state = .ANALYSIS)
      ∧ containsAnyKeyword premature_keywords user_response = true
      ∧ elapsed_seconds < 300 then
      [⟨.PREVENT_PREMATURE_SOLUTIONING, bPrematureMessage⟩] else []
  let l3 := if ctx.current_state = .SOLUTIONING
      ∧ containsAnyKeyword priority_keywords user_response = true
      ∧ pyIn "because" (pyLower user_response) = false
      ∧ pyIn "reason" (pyLower user_response) = false then
      [⟨.DEMAND_PRIORITIZATION_RATIONALE, bRationaleMessage⟩] else []
  l1 ++ l2 ++ l3

/-- The four notifications sent by backend `_notify_state_change`. -/
def stateChangeNotifications : List BMessage :=
  [⟨.CONTEXT, .NOTIFICATION, "state_change"⟩,
   ⟨.INTERVIEWER, .NOTIFICATION, "state_change"⟩,
   ⟨.EVALUATOR, .NOTIFICATION, "state_change"⟩,
   ⟨.SYNTHESIS, .NOTIFICATION, "state_change"⟩]

/-- Backend `OrchestratorAgent._handle_user_response`, returning the updated
context and the list of messages dispatched this turn.  The generative-model
call inside `_determine_next_state` is an oracle parameter
`ai_recommendation`; its result is filtered by membership in the phase
graph's adjacency list, as the parsing loop in the source does.  When any
intervention fires, the context gains the intervention records and only the
per-intervention notifications of `_apply_intervention` are dispatched; the
normal flow dispatches the three collaborator requests and possibly a
semantic transition. -/
def b_handle_user_response (ctx : BContext) (user_response : String)
    (elapsed_seconds : ℚ) (ai_recommendation : Option InterviewState)
    (now : Int) : BContext × List BMessage :=
  let ctx1 := { ctx with
      last_user_response := some user_response
      silence_duration := 0 }
  let ivs := b_check_interventions ctx1 user_response elapsed_seconds
  if ivs ≠ [] then
    ({ ctx1 with interventions := ctx1.interventions ++ ivs },
     ivs.map (fun _ => ⟨.INTERVIEWER, .NOTIFICATION, "intervention"⟩))
  else
    let msgs : List BMessage :=
      [⟨.CONTEXT, .REQUEST, "update_context"⟩,
       ⟨.EVALUATOR, .REQUEST, "evaluate_response"⟩,
       ⟨.INTERVIEWER, .REQUEST, "generate_followup"⟩]
    let nxt : Option InterviewState :=
      match ai_recommendation with
      | some st =>
          if st ∈ backend_state_transitions ctx1.current_state then some st
          else none
      | none => none
    match nxt with
    | some st =>
        if st ≠ ctx1.current_state then
          (bTransitionState ctx1 st "semantic" now,
           msgs ++ stateChangeNotifications)
        else (ctx1, msgs)
    | none => (ctx1, msgs)

/-! ## Complexity-to-strategy mapping -/

/-- `ComplexityLevel` enum of the ADK orchestrator (three levels). -/
inductive ADKComplexityLevel where
  | LOW
  | MEDIUM
  | HIGH
deriving DecidableEq, Repr

/-- `ReasoningStrategy` enum of the ADK orchestrator. -/
inductive ADKReasoningStrategy where
  | LEAN
  | COT
  | STEP_BACK
deriving DecidableEq, Repr

/-- `ReasoningStrategySelector.select_strategy`: the `strategy_map` dict
covers every `ComplexityLevel` member, so the lookup is total. -/
def select_strategy : ADKComplexityLevel → ADKReasoningStrategy
  | .LOW => .LEAN
  | .MEDIUM => .COT
  | .HIGH => .STEP_BACK

/-- `ComplexityLevel` enum of `common/config.py` (four levels). -/
inductive ComplexityLevel4 where
  | LOW
  | MEDIUM
  | HIGH
  | VERY_HIGH
deriving DecidableEq, Repr

/-- `ReasoningStrategy` enum of `common/config.py` (five members). -/
inductive ReasoningStrategy5 where
  | STANDARD
  | COT
  | STEP_BACK
  | SELF_REFLECTION
  | MULTI_AGENT
deriving DecidableEq, Repr

/-- `REASONING_CONFIGS` of `common/config.py`, in insertion order. -/
def REASONING_CONFIGS : List (ComplexityLevel4 × ReasoningStrategy5) :=
  [(.LOW, .STANDARD), (.MEDIUM, .COT), (.HIGH, .STEP_BACK),
   (.VERY_HIGH, .MULTI_AGENT)]

/-- `get_reasoning_strategy` of `common/config.py`: STANDARD when adaptive
reasoning is disabled, else a `dict.get` on `REASONING_CONFIGS` defaulting
to chain-of-thought. -/
def get_reasoning_strategy (enable_adaptive_reasoning : Bool)
    (c : ComplexityLevel4) : ReasoningStrategy5 :=
  if enable_adaptive_reasoning = false then .STANDARD
  else
    match REASONING_CONFIGS.find? (fun p => p.1 == c) with
    | some p => p.2
    | none => .COT

/-- The declared applicability of the REQUIRE_MEASURABLE_METRICS rule in
backend `_setup_intervention_rules` (a table the engine never evaluates). -/
def require_metrics_rule_states : List InterviewState := [.METRICS]

/-- The `vague_keywords` declared for the REQUIRE_MEASURABLE_METRICS rule in
backend `_setup_intervention_rules`. -/
def vague_keywords : List String :=
  ["engagement", "success", "good", "better", "improvement"]

/-- The breaker after a run of calls from a fresh breaker followed by one
final call with outcome `opN` at time `tN`. -/
def breakerAfterFailures (cfg : CircuitBreakerConfig)
    (fails : List (Int × OpOutcome)) (tN : Int) (opN : OpOutcome)
    (fb : Option String) : CBState :=
  (execute cfg tN opN fb (runCalls cfg fails initBreaker)).1

/-- The breaker of `breakerAfterFailures` after one successful call at `u0`
followed by further successful calls at the times in `us`. -/
def breakerAfterRecovery (cfg : CircuitBreakerConfig)
    (fails : List (Int × OpOutcome)) (tN : Int) (opN : OpOutcome)
    (fb : Option String) (u0 : Int) (us : List Int) : CBState :=
  runCalls cfg (us.map (fun u => (u, OpOutcome.ok)))
    (execute cfg u0 OpOutcome.ok fb (breakerAfterFailures cfg fails tN opN fb)).1

/-- The properties `_reset` establishes: CLOSED, failure counters zero,
failure window empty, half-open trial counter zero. -/
def ResetProps (s : CBState) : Prop :=
  s.state = .CLOSED ∧ s.consecutive_failures = 0 ∧ s.failures = 0
    ∧ s.failure_window = [] ∧ s.half_open_count = 0

/-- A backend transition record whose edge is in the declared phase graph. -/
def legalRecord (r : BTransitionRecord) : Prop :=
  r.to_state ∈ backend_state_transitions r.from_state

/-- Every committed record of the history is a legal edge. -/
def legalHistory (l : List BTransitionRecord) : Prop :=
  ∀ r ∈ l, legalRecord r

/-- Scenario A utterance. -/
def scenarioA_utterance : String := "I think the solution is to build a caching layer"

/-- Scenario A latest evaluator scores. -/
def scenarioA_scores : List (String × ℚ) := [("Problem Definition & Structuring", 2)]

/-- A fresh Scoping-phase session context for scenario A. -/
def scenarioA_context : BContext := ⟨.SCOPING, none, [], [], [], 0, none⟩

/-- A vague-metrics utterance containing several declared vague keywords. -/
def scenarioMetrics_utterance : String := "Our success will be better engagement"

/-- Latest scores with "Success Metrics" below the declared threshold. -/
def scenarioMetrics_scores : List (String × ℚ) := [("Success Metrics", 2)]

/-- A Metrics-phase session context for the vague-metrics scenario. -/
def scenarioMetrics_context : BContext :=
  ⟨.METRICS, none, [], scenarioMetrics_scores, [], 0, none⟩

/-- The failed calls of the lifecycle witness. -/
def c1fails : List (Int × OpOutcome) :=
  List.replicate 4 ((1000 : Int), OpOutcome.fail "boom")

/-- The successful follow-up call times of the lifecycle witness. -/
def c1us : List Int := [61000, 61000]

/-- A reachable HALF_OPEN breaker whose sliding window has expired: five
failures at t=1000 open the default breaker; a success at t=61000 moves it to
HALF_OPEN; by t=400000 the five window entries are older than the monitoring
window. -/
def halfOpenExpiredBreaker : CBState :=
  runCalls defaultConfig
    ((List.replicate 5 ((1000 : Int), OpOutcome.fail "primary failure")) ++
      [(61000, OpOutcome.ok)]) initBreaker

/-! ## Circuit-breaker lemmas -/

theorem failStep_closed (cfg : CircuitBreakerConfig) (t : Int) (op : OpOutcome)
    (fb : Option String) (s : CBState)
    (hop : op ≠ .ok) (hst : s.state = .CLOSED)
    (hwin : s.failure_window.length ≤ s.consecutive_failures)
    (hlt : s.consecutive_failures + 1 < cfg.failure_threshold) :
    ((execute cfg t op fb s).1).state = .CLOSED
    ∧ ((execute cfg t op fb s).1).consecutive_failures = s.consecutive_failures + 1
    ∧ ((execute cfg t op fb s).1).failure_window.length ≤ s.consecutive_failures + 1 := by
  have hA := List.length_filter_le
    (fun x => decide (t - cfg.monitoring_window < x)) s.failure_window
  have hB := List.length_filter_le
    (fun x => decide (t - cfg.monitoring_window < x)) [t]
  simp only [List.length_cons, List.length_nil] at hB
  have hcond : ¬(cfg.failure_threshold ≤ s.consecutive_failures + 1 ∨
      cfg.failure_threshold ≤
        (List.filter (fun x => decide (t - cfg.monitoring_window < x)) s.failure_window).length +
          (List.filter (fun x => decide (t - cfg.monitoring_window < x)) [t]).length) := by
    omega
  cases op with
  | ok => exact absurd rfl hop
  | fail e =>
    simp [execute, openPreCheck, recordTimeout, onFailure, onFailurePre,
      cleanFailureWindow, shouldOpenCircuit, hst, hcond]
    omega
  | timedOut ms =>
    simp [execute, openPreCheck, recordTimeout, onFailure, onFailurePre,
      cleanFailureWindow, shouldOpenCircuit, hst, hcond]
    omega

theorem failStep_opens (cfg : CircuitBreakerConfig) (t : Int) (op : OpOutcome)
    (fb : Option String) (s : CBState)
    (hop : op ≠ .ok) (hst : s.state = .CLOSED)
    (hth : cfg.failure_threshold ≤ s.consecutive_failures + 1) :
    ((execute cfg t op fb s).1).state = .OPEN
    ∧ ((execute cfg t op fb s).1).circuit_open_time = some t
    ∧ ((execute cfg t op fb s).1).half_open_count = 0 := by
  cases op with
  | ok => exact absurd rfl hop
  | fail e =>
    simp [execute, openPreCheck, recordTimeout, onFailure, onFailurePre,
      cleanFailureWindow, shouldOpenCircuit, openCircuit, hst, hth]
  | timedOut ms =>
    simp [execute, openPreCheck, recordTimeout, onFailure, onFailurePre,
      cleanFailureWindow, shouldOpenCircuit, openCircuit, hst, hth]

theorem runCalls_closed (cfg : CircuitBreakerConfig)
    (calls : List (Int × OpOutcome)) :
    ∀ s : CBState, s.state = .CLOSED →
      s.failure_window.length ≤ s.consecutive_failures →
      (∀ c ∈ calls, c.2 ≠ OpOutcome.ok) →
      s.consecutive_failures + calls.length < cfg.failure_threshold →
      (runCalls cfg calls s).state = .CLOSED
      ∧ (runCalls cfg calls s).consecutive_failures
            = s.consecutive_failures + calls.length
      ∧ (runCalls cfg calls s).failure_window.length
            ≤ (runCalls cfg calls s).consecutive_failures := by
  induction calls with
  | nil =>
    intro s hst hwin _ _
    exact ⟨hst, by simp [runCalls], by simpa [runCalls] using hwin⟩
  | cons c rest ih =>
    intro s hst hwin hops hlt
    obtain ⟨t, op⟩ := c
    have hop : op ≠ .ok := hops (t, op) (by simp)
    have hstep := failStep_closed cfg t op none s hop hst hwin (by simp at hlt; omega)
    have hrec := ih ((execute cfg t op none s).1) hstep.1
      (by rw [hstep.2.1]; exact hstep.2.2)
      (fun c hc => hops c (List.mem_cons_of_mem _ hc))
      (by rw [hstep.2.1]; simp at hlt ⊢; omega)
    refine ⟨hrec.1, ?_, hrec.2.2⟩
    rw [show runCalls cfg ((t, op) :: rest) s
        = runCalls cfg rest (execute cfg t op none s).1 from rfl]
    rw [hrec.2.1, hstep.2.1]
    simp
    omega

theorem succStep_from_open (cfg : CircuitBreakerConfig) (u t0 : Int)
    (fb : Option String) (s : CBState)
    (hst : s.state = .OPEN) (hot : s.circuit_open_time = some t0) (ht0 : t0 ≠ 0)
    (hrt : cfg.reset_timeout ≤ u - t0) :
    (cfg.half_open_requests ≤ 1 → ResetProps ((execute cfg u .ok fb s).1))
    ∧ (1 < cfg.half_open_requests →
        ((execute cfg u .ok fb s).1).state = .HALF_OPEN
        ∧ ((execute cfg u .ok fb s).1).half_open_count = 1
        ∧ ((execute cfg u .ok fb s).1).consecutive_failures = 0) := by
  have hres : ∀ s' : CBState, s'.circuit_open_time = some t0 →
      shouldAttemptReset cfg u s' = true := by
    intro s' h
    simp [shouldAttemptReset, h, ht0, hrt]
  constructor
  · intro hq
    simp [execute, openPreCheck, onSuccess, cleanFailureWindow, resetBreaker,
      ResetProps, hst, hot, hres, hq]
  · intro hq
    have hq1 : ¬ (cfg.half_open_requests ≤ 1) := by omega
    simp [execute, openPreCheck, onSuccess, cleanFailureWindow, resetBreaker,
      hst, hot, hres, hq1]

theorem succStep_half (cfg : CircuitBreakerConfig) (u : Int) (fb : Option String)
    (s : CBState) (hst : s.state = .HALF_OPEN) :
    (cfg.half_open_requests ≤ s.half_open_count + 1 →
      ResetProps ((execute cfg u .ok fb s).1))
    ∧ (¬ cfg.half_open_requests ≤ s.half_open_count + 1 →
        ((execute cfg u .ok fb s).1).state = .HALF_OPEN
        ∧ ((execute cfg u .ok fb s).1).half_open_count = s.half_open_count + 1) := by
  constructor <;> intro hq <;>
    simp [execute, openPreCheck, onSuccess, cleanFailureWindow, resetBreaker,
      ResetProps, hst, hq]

theorem succStep_reset_props (cfg : CircuitBreakerConfig) (u : Int)
    (fb : Option String) (s : CBState) (h : ResetProps s) :
    ResetProps ((execute cfg u .ok fb s).1) := by
  obtain ⟨h1, h2, h3, h4, h5⟩ := h
  simp [execute, openPreCheck, onSuccess, cleanFailureWindow, ResetProps,
    h1, h2, h3, h4, h5]

theorem runCalls_ok_reset (cfg : CircuitBreakerConfig) (us : List Int) :
    ∀ s : CBState, ResetProps s →
      ResetProps (runCalls cfg (us.map (fun u => (u, OpOutcome.ok))) s) := by
  induction us with
  | nil => intro s h; simpa [runCalls] using h
  | cons u rest ih =>
    intro s h
    have h1 := succStep_reset_props cfg u none s h
    simp only [List.map_cons, runCalls]
    exact ih _ h1

theorem runCalls_half_to_closed (cfg : CircuitBreakerConfig) (us : List Int) :
    ∀ s : CBState, s.state = .HALF_OPEN →
      s.half_open_count < cfg.half_open_requests →
      cfg.half_open_requests ≤ s.half_open_count + us.length →
      ResetProps (runCalls cfg (us.map (fun u => (u, OpOutcome.ok))) s) := by
  induction us with
  | nil =>
    intro s hst hlt hge
    exfalso
    simp at hge
    omega
  | cons u rest ih =>
    intro s hst hlt hge
    have hs := succStep_half cfg u none s hst
    by_cases hq : cfg.half_open_requests ≤ s.half_open_count + 1
    · have hr := hs.1 hq
      simp only [List.map_cons, runCalls]
      exact runCalls_ok_reset cfg rest _ hr
    · have hr := hs.2 hq
      simp only [List.map_cons, runCalls]
      refine ih _ hr.1 (by omega) ?_
      rw [hr.2]
      simp at hge
      omega

/-- Claim C1: from CLOSED, `failure_threshold` consecutive failed `execute` calls
leave the breaker OPEN with the open timestamp recorded; once `reset_timeout`
has elapsed since that timestamp, the next call passes the fail-fast gate in
state HALF_OPEN; and after `half_open_requests` consecutive successful calls
in HALF_OPEN the breaker is CLOSED with the consecutive-failure counters at
zero and the failure window empty.  (`tN ≠ 0` reflects the falsy-timestamp
guard in `_should_attempt_reset`.) -/
theorem circuit_breaker_lifecycle (cfg : CircuitBreakerConfig)
    (fails : List (Int × OpOutcome)) (tN : Int) (opN : OpOutcome)
    (us : List Int) (u0 : Int) (fb : Option String)
    (hfail : ∀ c ∈ fails, c.2 ≠ OpOutcome.ok)
    (hopN : opN ≠ OpOutcome.ok)
    (hth : fails.length + 1 = cfg.failure_threshold)
    (hh : us.length + 1 = cfg.half_open_requests)
    (htN : tN ≠ 0)
    (hrt : cfg.reset_timeout ≤ u0 - tN) :
    (breakerAfterFailures cfg fails tN opN fb).state = .OPEN
    ∧ (breakerAfterFailures cfg fails tN opN fb).circuit_open_time = some tN
    ∧ (openPreCheck cfg u0 { breakerAfterFailures cfg fails tN opN fb with
        total_requests :=
          (breakerAfterFailures cfg fails tN opN fb).total_requests + 1 }).2 = false
    ∧ (openPreCheck cfg u0 { breakerAfterFailures cfg fails tN opN fb with
        total_requests :=
          (breakerAfterFailures cfg fails tN opN fb).total_requests + 1 }).1.state
        = .HALF_OPEN
    ∧ (breakerAfterRecovery cfg fails tN opN fb u0 us).state = .CLOSED
    ∧ (breakerAfterRecovery cfg fails tN opN fb u0 us).consecutive_failures = 0
    ∧ (breakerAfterRecovery cfg fails tN opN fb u0 us).failures = 0
    ∧ (breakerAfterRecovery cfg fails tN opN fb u0 us).failure_window = [] := by
  simp only [breakerAfterFailures, breakerAfterRecovery]
  have hA := runCalls_closed cfg fails initBreaker rfl (by simp [initBreaker]) hfail
    (by simp [initBreaker]; omega)
  have hOpen := failStep_opens cfg tN opN fb (runCalls cfg fails initBreaker) hopN hA.1
    (by rw [hA.2.1]; simp [initBreaker]; omega)
  have hres : ∀ s' : CBState, s'.circuit_open_time = some tN →
      shouldAttemptReset cfg u0 s' = true := by
    intro s' h
    simp [shouldAttemptReset, h, htN, hrt]
  have hfrom := succStep_from_open cfg u0 tN fb
    (execute cfg tN opN fb (runCalls cfg fails initBreaker)).1
    hOpen.1 hOpen.2.1 htN hrt
  have hfin : ResetProps (runCalls cfg (us.map (fun u => (u, OpOutcome.ok)))
      (execute cfg u0 OpOutcome.ok fb
        (execute cfg tN opN fb (runCalls cfg fails initBreaker)).1).1) := by
    by_cases hq : cfg.half_open_requests ≤ 1
    · exact runCalls_ok_reset cfg us _ (hfrom.1 hq)
    · have hhalf := hfrom.2 (by omega)
      exact runCalls_half_to_closed cfg us _ hhalf.1
        (by rw [hhalf.2.1]; omega) (by rw [hhalf.2.1]; omega)
  refine ⟨hOpen.1, hOpen.2.1, ?_, ?_,
    hfin.1, hfin.2.1, hfin.2.2.1, hfin.2.2.2.1⟩
  · simp [openPreCheck, hOpen.1, hOpen.2.1, hres]
  · simp [openPreCheck, hOpen.1, hOpen.2.1, hres]

/-- Witness for `circuit_breaker_lifecycle` at the registry's default
configuration. -/
theorem circuit_breaker_lifecycle_witness :
    ((∀ c ∈ c1fails, c.2 ≠ OpOutcome.ok)
      ∧ OpOutcome.fail "boom" ≠ OpOutcome.ok
      ∧ c1fails.length + 1 = defaultConfig.failure_threshold
      ∧ c1us.length + 1 = defaultConfig.half_open_requests
      ∧ (1000 : Int) ≠ 0
      ∧ defaultConfig.reset_timeout ≤ (61000 : Int) - 1000)
    ∧ ((breakerAfterFailures defaultConfig c1fails 1000 (OpOutcome.fail "boom") none).state = .OPEN
      ∧ (breakerAfterFailures defaultConfig c1fails 1000 (OpOutcome.fail "boom") none).circuit_open_time = some 1000
      ∧ (openPreCheck defaultConfig 61000
          { breakerAfterFailures defaultConfig c1fails 1000 (OpOutcome.fail "boom") none with
            total_requests :=
              (breakerAfterFailures defaultConfig c1fails 1000 (OpOutcome.fail "boom") none).total_requests + 1 }).2 = false
      ∧ (openPreCheck defaultConfig 61000
          { breakerAfterFailures defaultConfig c1fails 1000 (OpOutcome.fail "boom") none with
            total_requests :=
              (breakerAfterFailures defaultConfig c1fails 1000 (OpOutcome.fail "boom") none).total_requests + 1 }).1.state
          = .HALF_OPEN
      ∧ (breakerAfterRecovery defaultConfig c1fails 1000 (OpOutcome.fail "boom") none 61000 c1us).state = .CLOSED
      ∧ (breakerAfterRecovery defaultConfig c1fails 1000 (OpOutcome.fail "boom") none 61000 c1us).consecutive_failures = 0
      ∧ (breakerAfterRecovery defaultConfig c1fails 1000 (OpOutcome.fail "boom") none 61000 c1us).failures = 0
      ∧ (breakerAfterRecovery defaultConfig c1fails 1000 (OpOutcome.fail "boom") none 61000 c1us).failure_window = []) :=
  ⟨⟨by decide, by decide, by decide, by decide, by decide, by decide⟩,
   circuit_breaker_lifecycle defaultConfig c1fails 1000 (OpOutcome.fail "boom")
     c1us 61000 none (by decide) (by decide) (by decide) (by decide)
     (by decide) (by decide)⟩

/-- Claim C2, counterexample: from the reachable HALF_OPEN state above, a single
failed `execute` call at t=400000 does NOT return the breaker to OPEN — the
pruned failure window and the consecutive counter are both below the
threshold, so the breaker stays HALF_OPEN and the trial counter keeps its
value 1 instead of being reset to 0. -/
theorem half_open_failure_stays_half_open_cex :
    halfOpenExpiredBreaker.state = CircuitState.HALF_OPEN
    ∧ halfOpenExpiredBreaker.half_open_count = 1
    ∧ (execute defaultConfig 400000 (OpOutcome.fail "primary failure") none
        halfOpenExpiredBreaker).1.state = CircuitState.HALF_OPEN
    ∧ (execute defaultConfig 400000 (OpOutcome.fail "primary failure") none
        halfOpenExpiredBreaker).1.state ≠ CircuitState.OPEN
    ∧ (execute defaultConfig 400000 (OpOutcome.fail "primary failure") none
        halfOpenExpiredBreaker).1.half_open_count = 1 := by decide

/-- Claim C2, amended: a failed `execute` call in HALF_OPEN returns the breaker to
OPEN (zeroing the trial counter) exactly when, after the failure is recorded,
the consecutive-failure count or the pruned window length reaches
`failure_threshold`; otherwise the breaker stays HALF_OPEN with the trial
counter unchanged. -/
theorem half_open_failure_reopens_iff_threshold (cfg : CircuitBreakerConfig)
    (now : Int) (op : OpOutcome) (fb : Option String) (s : CBState)
    (hop : op ≠ OpOutcome.ok) (hst : s.state = .HALF_OPEN) :
    (shouldOpenCircuit cfg (onFailurePre cfg now s) = true →
      ((execute cfg now op fb s).1).state = .OPEN
      ∧ ((execute cfg now op fb s).1).half_open_count = 0)
    ∧ (shouldOpenCircuit cfg (onFailurePre cfg now s) = false →
      ((execute cfg now op fb s).1).state = .HALF_OPEN
      ∧ ((execute cfg now op fb s).1).half_open_count = s.half_open_count) := by
  cases op with
  | ok => exact absurd rfl hop
  | fail e =>
    refine ⟨fun hcondT => ?_, fun hcondF => ?_⟩
    · simp only [shouldOpenCircuit, onFailurePre, cleanFailureWindow] at hcondT
      simp at hcondT
      simp [execute, openPreCheck, recordTimeout, onFailure, onFailurePre,
        cleanFailureWindow, shouldOpenCircuit, openCircuit, hst, hcondT]
    · simp only [shouldOpenCircuit, onFailurePre, cleanFailureWindow] at hcondF
      simp [not_or] at hcondF
      have hnot : ¬(cfg.failure_threshold ≤ s.consecutive_failures + 1 ∨
          cfg.failure_threshold ≤
            (List.filter (fun t => decide (now - cfg.monitoring_window < t))
              s.failure_window).length +
              (List.filter (fun t => decide (now - cfg.monitoring_window < t))
                [now]).length) := by
        omega
      simp [execute, openPreCheck, recordTimeout, onFailure, onFailurePre,
        cleanFailureWindow, shouldOpenCircuit, openCircuit, hst, hnot]
  | timedOut ms =>
    refine ⟨fun hcondT => ?_, fun hcondF => ?_⟩
    · simp only [shouldOpenCircuit, onFailurePre, cleanFailureWindow] at hcondT
      simp at hcondT
      simp [execute, openPreCheck, recordTimeout, onFailure, onFailurePre,
        cleanFailureWindow, shouldOpenCircuit, openCircuit, hst, hcondT]
    · simp only [shouldOpenCircuit, onFailurePre, cleanFailureWindow] at hcondF
      simp [not_or] at hcondF
      have hnot : ¬(cfg.failure_threshold ≤ s.consecutive_failures + 1 ∨
          cfg.failure_threshold ≤
            (List.filter (fun t => decide (now - cfg.monitoring_window < t))
              s.failure_window).length +
              (List.filter (fun t => decide (now - cfg.monitoring_window < t))
                [now]).length) := by
        omega
      simp [execute, openPreCheck, recordTimeout, onFailure, onFailurePre,
        cleanFailureWindow, shouldOpenCircuit, openCircuit, hst, hnot]

/-- Witness for `half_open_failure_reopens_iff_threshold` at the reachable
HALF_OPEN state of the counterexample trace. -/
theorem half_open_failure_reopens_iff_threshold_witness :
    (OpOutcome.fail "primary failure" ≠ OpOutcome.ok
      ∧ halfOpenExpiredBreaker.state = .HALF_OPEN)
    ∧ ((shouldOpenCircuit defaultConfig
          (onFailurePre defaultConfig 400000 halfOpenExpiredBreaker) = true →
        ((execute defaultConfig 400000 (OpOutcome.fail "primary failure") none
            halfOpenExpiredBreaker).1).state = .OPEN
        ∧ ((execute defaultConfig 400000 (OpOutcome.fail "primary failure") none
            halfOpenExpiredBreaker).1).half_open_count = 0)
      ∧ (shouldOpenCircuit defaultConfig
          (onFailurePre defaultConfig 400000 halfOpenExpiredBreaker) = false →
        ((execute defaultConfig 400000 (OpOutcome.fail "primary failure") none
            halfOpenExpiredBreaker).1).state = .HALF_OPEN
        ∧ ((execute defaultConfig 400000 (OpOutcome.fail "primary failure") none
            halfOpenExpiredBreaker).1).half_open_count
            = halfOpenExpiredBreaker.half_open_count)) :=
  ⟨⟨by decide, by decide⟩,
   half_open_failure_reopens_iff_threshold defaultConfig 400000
     (OpOutcome.fail "primary failure") none halfOpenExpiredBreaker
     (by decide) (by decide)⟩

theorem listPrefixOf_refl (l : List Char) : listPrefixOf l l = true := by
  induction l with
  | nil => rfl
  | cons a as ih => simp [listPrefixOf, ih]

theorem listSubOf_suffix (n pre : List Char) : listSubOf n (pre ++ n) = true := by
  induction pre with
  | nil =>
    cases n with
    | nil => rfl
    | cons a as => simp [listSubOf, listPrefixOf_refl]
  | cons c pr ih => simp [listSubOf, ih]

/-- Claim C3, counterexample: on a fresh CLOSED breaker whose fallback would
succeed, a single failed call propagates the primary error to the caller
instead of returning the fallback result. -/
theorem primary_failure_propagates_cex :
    (execute defaultConfig 1000 (OpOutcome.fail "primary boom") none
      initBreaker).2 = ExecResult.raisedError "primary boom"
    ∧ (execute defaultConfig 1000 (OpOutcome.fail "primary boom") none
      initBreaker).2 ≠ ExecResult.fbValue := by decide

/-- Claim C3, amended: for a call that attempts the operation (breaker not OPEN at
entry) whose primary operation fails, the fallback is consulted only when
recording the failure leaves the breaker OPEN — the caller then receives the
fallback value, or, if the fallback also failed, the raised composite error
(which embeds the fallback failure message); when the breaker is not OPEN
after the failure, the primary error itself propagates. -/
theorem execute_failure_routing (cfg : CircuitBreakerConfig) (now : Int)
    (e fbErr : String) (fb : Option String) (s : CBState)
    (hst : s.state ≠ .OPEN) :
    ((onFailure cfg now { s with total_requests := s.total_requests + 1 }).state = .OPEN →
      (execute cfg now (.fail e) fb s).2 = executeFallbackResult fb)
    ∧ ((onFailure cfg now { s with total_requests := s.total_requests + 1 }).state ≠ .OPEN →
      (execute cfg now (.fail e) fb s).2 = .raisedError e)
    ∧ executeFallbackResult (some fbErr) = .raisedError (compositeMessage fbErr)
    ∧ pyIn fbErr (compositeMessage fbErr) = true := by
  refine ⟨fun h => ?_, fun h => ?_, rfl, ?_⟩
  · simp [execute, openPreCheck, recordTimeout, hst, h]
  · simp [execute, openPreCheck, recordTimeout, opErrorMessage, hst, h]
  · show listSubOf fbErr.data (String.data ("Both primary operation and fallback failed: " ++ fbErr))
      = true
    rw [String.data_append]
    exact listSubOf_suffix fbErr.data _

/-- Witness for `execute_failure_routing`: a fresh CLOSED breaker with a
failing primary and a failing fallback. -/
theorem execute_failure_routing_witness :
    (initBreaker.state ≠ CircuitState.OPEN
      ∧ (onFailure defaultConfig 1000
          { initBreaker with total_requests := initBreaker.total_requests + 1 }).state
          ≠ CircuitState.OPEN)
    ∧ (((onFailure defaultConfig 1000
          { initBreaker with total_requests := initBreaker.total_requests + 1 }).state = .OPEN →
        (execute defaultConfig 1000 (.fail "primary boom") (some "fallback boom")
          initBreaker).2 = executeFallbackResult (some "fallback boom"))
      ∧ ((onFailure defaultConfig 1000
          { initBreaker with total_requests := initBreaker.total_requests + 1 }).state ≠ .OPEN →
        (execute defaultConfig 1000 (.fail "primary boom") (some "fallback boom")
          initBreaker).2 = .raisedError "primary boom")
      ∧ executeFallbackResult (some "fallback boom")
          = .raisedError (compositeMessage "fallback boom")
      ∧ pyIn "fallback boom" (compositeMessage "fallback boom") = true) :=
  ⟨⟨by decide, by decide⟩,
   execute_failure_routing defaultConfig 1000 "primary boom" "fallback boom"
     (some "fallback boom") initBreaker (by decide)⟩

/-- Claim C4: while OPEN with the reset timeout not yet elapsed since the recorded
open timestamp, `execute` rejects the call before the operation runs and
consults the fallback; and in scenario C (five consecutive timeouts under the
default config) the sixth call is rejected at the fail-fast gate, returns the
fallback value, and the registry's health summary lists the breaker key under
`failed`. -/
theorem open_breaker_fail_fast (cfg : CircuitBreakerConfig) (now t : Int)
    (op : OpOutcome) (fb : Option String) (s : CBState)
    (hst : s.state = .OPEN) (hot : s.circuit_open_time = some t)
    (hlt : now - t < cfg.reset_timeout) :
    ((openPreCheck cfg now
        { s with total_requests := s.total_requests + 1 }).2 = true
      ∧ (execute cfg now op fb s).2 = executeFallbackResult fb
      ∧ (execute cfg now op fb s).1
          = { s with total_requests := s.total_requests + 1 })
    ∧ ((openPreCheck defaultConfig 2000
          { breakerAfterFailures defaultConfig
              (List.replicate 4 ((1000 : Int), OpOutcome.timedOut 30000))
              1000 (OpOutcome.timedOut 30000) none with
            total_requests :=
              (breakerAfterFailures defaultConfig
                (List.replicate 4 ((1000 : Int), OpOutcome.timedOut 30000))
                1000 (OpOutcome.timedOut 30000) none).total_requests + 1 }).2 = true
      ∧ (execute defaultConfig 2000 (OpOutcome.timedOut 30000) none
          (breakerAfterFailures defaultConfig
            (List.replicate 4 ((1000 : Int), OpOutcome.timedOut 30000))
            1000 (OpOutcome.timedOut 30000) none)).2 = ExecResult.fbValue
      ∧ (getHealthSummary [("interviewer-generate_followup",
          (execute defaultConfig 2000 (OpOutcome.timedOut 30000) none
            (breakerAfterFailures defaultConfig
              (List.replicate 4 ((1000 : Int), OpOutcome.timedOut 30000))
              1000 (OpOutcome.timedOut 30000) none)).1)]).failed
          = ["interviewer-generate_followup"]
      ∧ (breakerAfterFailures defaultConfig
          (List.replicate 4 ((1000 : Int), OpOutcome.timedOut 30000))
          1000 (OpOutcome.timedOut 30000) none).timeouts = 5) := by
  have hres : ∀ s' : CBState, s'.circuit_open_time = some t →
      shouldAttemptReset cfg now s' = false := by
    intro s' h
    by_cases ht : t = 0
    · simp [shouldAttemptReset, h, ht]
    · simp [shouldAttemptReset, h, ht]
      omega
  refine ⟨⟨?_, ?_, ?_⟩, by decide⟩
  · simp [openPreCheck, hst, hot, hres]
  · simp [execute, openPreCheck, hst, hot, hres]
  · simp [execute, openPreCheck, hst, hot, hres]

/-- Witness for `open_breaker_fail_fast` at the scenario-C breaker state. -/
theorem open_breaker_fail_fast_witness :
    ((breakerAfterFailures defaultConfig
        (List.replicate 4 ((1000 : Int), OpOutcome.timedOut 30000))
        1000 (OpOutcome.timedOut 30000) none).state = .OPEN
      ∧ (breakerAfterFailures defaultConfig
          (List.replicate 4 ((1000 : Int), OpOutcome.timedOut 30000))
          1000 (OpOutcome.timedOut 30000) none).circuit_open_time = some 1000
      ∧ (2000 : Int) - 1000 < defaultConfig.reset_timeout)
    ∧ ((openPreCheck defaultConfig 2000
        { breakerAfterFailures defaultConfig
            (List.replicate 4 ((1000 : Int), OpOutcome.timedOut 30000))
            1000 (OpOutcome.timedOut 30000) none with
          total_requests :=
            (breakerAfterFailures defaultConfig
              (List.replicate 4 ((1000 : Int), OpOutcome.timedOut 30000))
              1000 (OpOutcome.timedOut 30000) none).total_requests + 1 }).2 = true
      ∧ (execute defaultConfig 2000 (OpOutcome.timedOut 30000) none
          (breakerAfterFailures defaultConfig
            (List.replicate 4 ((1000 : Int), OpOutcome.timedOut 30000))
            1000 (OpOutcome.timedOut 30000) none)).2
          = executeFallbackResult none
      ∧ (execute defaultConfig 2000 (OpOutcome.timedOut 30000) none
          (breakerAfterFailures defaultConfig
            (List.replicate 4 ((1000 : Int), OpOutcome.timedOut 30000))
            1000 (OpOutcome.timedOut 30000) none)).1
          = { breakerAfterFailures defaultConfig
                (List.replicate 4 ((1000 : Int), OpOutcome.timedOut 30000))
                1000 (OpOutcome.timedOut 30000) none with
              total_requests :=
                (breakerAfterFailures defaultConfig
                  (List.replicate 4 ((1000 : Int), OpOutcome.timedOut 30000))
                  1000 (OpOutcome.timedOut 30000) none).total_requests + 1 }) :=
  ⟨⟨by decide, by decide, by decide⟩,
   (open_breaker_fail_fast defaultConfig 2000 1000 (OpOutcome.timedOut 30000)
     none (breakerAfterFailures defaultConfig
       (List.replicate 4 ((1000 : Int), OpOutcome.timedOut 30000))
       1000 (OpOutcome.timedOut 30000) none)
     (by decide) (by decide) (by decide)).1⟩

/-- Claim C5: for a phase pair outside the declared adjacency map,
`can_transition` is false and a commit attempt is a no-op in both
orchestrators — the current phase stays put and no history entry is
appended; moreover any backend commit attempt preserves the invariant that
every committed history entry records a legal edge. -/
theorem illegal_transition_noop
    (sess : ADKSession) (b : InterviewState) (trig : String) (now : Int)
    (ctx ctx2 : BContext) (cb cb2 : InterviewState)
    (hb : b ∉ valid_transitions sess.current_state)
    (hcb : cb ∉ backend_state_transitions ctx.current_state)
    (hleg : legalHistory ctx2.state_transitions) :
    can_transition sess.current_state b = false
    ∧ adkTransitionState sess b trig now = (sess, false)
    ∧ bTransitionState ctx cb trig now = ctx
    ∧ legalHistory ((bTransitionState ctx2 cb2 trig now).state_transitions) := by
  refine ⟨?_, ?_, ?_, ?_⟩
  · simp [can_transition, hb]
  · simp [adkTransitionState, can_transition, hb]
  · simp [bTransitionState, hcb]
  · by_cases hmem : cb2 ∈ backend_state_transitions ctx2.current_state
    · simp only [bTransitionState, if_pos hmem]
      intro r hr
      rcases List.mem_append.mp hr with h | h
      · exact hleg r h
      · simp only [List.mem_singleton] at h
        subst h
        exact hmem
    · simp only [bTransitionState, if_neg hmem]
      exact hleg

/-- Witness for `illegal_transition_noop`: attempting Metrics → Scoping,
which is in neither phase graph. -/
theorem illegal_transition_noop_witness :
    (InterviewState.SCOPING ∉
        valid_transitions (( ⟨.METRICS, none, []⟩ : ADKSession)).current_state
      ∧ InterviewState.SCOPING ∉ backend_state_transitions
          ((⟨.METRICS, none, [], [], [], 0, none⟩ : BContext)).current_state
      ∧ legalHistory ((⟨.METRICS, none, [], [], [], 0, none⟩ : BContext)).state_transitions)
    ∧ (can_transition ((⟨.METRICS, none, []⟩ : ADKSession)).current_state .SCOPING = false
      ∧ adkTransitionState ⟨.METRICS, none, []⟩ .SCOPING "semantic" 0
          = (⟨.METRICS, none, []⟩, false)
      ∧ bTransitionState ⟨.METRICS, none, [], [], [], 0, none⟩ .SCOPING "semantic" 0
          = ⟨.METRICS, none, [], [], [], 0, none⟩
      ∧ legalHistory ((bTransitionState ⟨.METRICS, none, [], [], [], 0, none⟩
          .CHALLENGING "semantic" 0).state_transitions)) :=
  ⟨⟨by decide, by decide, by intro r hr; simp at hr⟩,
   illegal_transition_noop ⟨.METRICS, none, []⟩ .SCOPING "semantic" 0
     ⟨.METRICS, none, [], [], [], 0, none⟩ ⟨.METRICS, none, [], [], [], 0, none⟩
     .SCOPING .CHALLENGING (by decide) (by decide)
     (by intro r hr; simp at hr)⟩

/-- Claim C6, code-bug evidence: the trigger phrase "KPIs" is declared for the
Solutioning → Metrics transition and matches the utterance
case-insensitively, yet `detect_semantic_transition` returns none because
the phrase is compared verbatim against the lowercased utterance — trigger
phrases containing uppercase letters can never fire. -/
theorem uppercase_trigger_never_matches :
    detect_semantic_transition .SOLUTIONING "We should track KPIs closely" = none
    ∧ pyIn (pyLower "KPIs") (pyLower "We should track KPIs closely") = true
    ∧ (∃ p ∈ semantic_triggers .SOLUTIONING, p.1 = .METRICS ∧ "KPIs" ∈ p.2) := by
  decide

/-- Claim C7: in scenario A the ADK gating engine returns the
premature-solutioning directive, the backend turn handler fires an
intervention and dispatches no request message, and in general an
intervention-bearing turn dispatches only notifications. -/
theorem premature_solutioning_scenario
    (ctx : BContext) (resp : String) (el : ℚ) (ai : Option InterviewState)
    (now : Int)
    (hfires : b_check_interventions
        { ctx with last_user_response := some resp, silence_duration := 0 }
        resp el ≠ []) :
    (check_gating_conditions .SCOPING (some scenarioA_utterance)
        scenarioA_scores).map (fun d => d.itype)
        = some .PREVENT_PREMATURE_SOLUTIONING
    ∧ (b_handle_user_response scenarioA_context scenarioA_utterance 10 none 0).2 ≠ []
    ∧ (∀ m ∈ (b_handle_user_response scenarioA_context scenarioA_utterance
        10 none 0).2, m.mtype ≠ MessageType.REQUEST)
    ∧ (b_handle_user_response scenarioA_context scenarioA_utterance
        10 none 0).1.interventions.map (fun d => d.itype)
        = [.PREVENT_PREMATURE_SOLUTIONING]
    ∧ (∀ m ∈ (b_handle_user_response ctx resp el ai now).2,
        m.mtype ≠ MessageType.REQUEST) := by
  refine ⟨by decide, by decide, by decide, by decide, ?_⟩
  simp only [b_handle_user_response]
  rw [if_pos hfires]
  intro m hm
  simp only [List.mem_map] at hm
  rcases hm with ⟨d, hd, rfl⟩
  decide

/-- Witness for `premature_solutioning_scenario` at the scenario-A inputs. -/
theorem premature_solutioning_scenario_witness :
    (b_check_interventions
        { scenarioA_context with
          last_user_response := some scenarioA_utterance, silence_duration := 0 }
        scenarioA_utterance 10 ≠ [])
    ∧ ((check_gating_conditions .SCOPING (some scenarioA_utterance)
        scenarioA_scores).map (fun d => d.itype)
        = some .PREVENT_PREMATURE_SOLUTIONING
      ∧ (b_handle_user_response scenarioA_context scenarioA_utterance 10 none 0).2 ≠ []
      ∧ (∀ m ∈ (b_handle_user_response scenarioA_context scenarioA_utterance
          10 none 0).2, m.mtype ≠ MessageType.REQUEST)
      ∧ (b_handle_user_response scenarioA_context scenarioA_utterance
          10 none 0).1.interventions.map (fun d => d.itype)
          = [.PREVENT_PREMATURE_SOLUTIONING]
      ∧ (∀ m ∈ (b_handle_user_response scenarioA_context scenarioA_utterance
          10 none 0).2, m.mtype ≠ MessageType.REQUEST)) :=
  ⟨by decide,
   premature_solutioning_scenario scenarioA_context scenarioA_utterance 10 none 0
     (by decide)⟩

/-- Claim C8, code-bug evidence: the REQUIRE_MEASURABLE_METRICS rule is declared for the
Metrics phase with vague keywords and a Success-Metrics threshold, and all
its declared conditions hold on this input, yet neither intervention engine
emits any directive — no implemented rule covers the Metrics phase. -/
theorem vague_metrics_rule_not_implemented :
    (InterviewState.METRICS ∈ require_metrics_rule_states
      ∧ containsAnyKeyword vague_keywords scenarioMetrics_utterance = true
      ∧ dictGetQ scenarioMetrics_scores "Success Metrics" 0 < 3)
    ∧ check_gating_conditions .METRICS (some scenarioMetrics_utterance)
        scenarioMetrics_scores = none
    ∧ b_check_interventions scenarioMetrics_context scenarioMetrics_utterance
        100 = [] := by
  decide

/-- Claim C9, counterexample: with adaptive reasoning enabled, the config maps the
VERY_HIGH tier to MULTI_AGENT, not SELF_REFLECTION, and the LOW tier to
STANDARD. -/
theorem very_high_maps_to_multi_agent_cex :
    get_reasoning_strategy true ComplexityLevel4.VERY_HIGH
      = ReasoningStrategy5.MULTI_AGENT
    ∧ get_reasoning_strategy true ComplexityLevel4.VERY_HIGH
      ≠ ReasoningStrategy5.SELF_REFLECTION
    ∧ get_reasoning_strategy true ComplexityLevel4.LOW
      = ReasoningStrategy5.STANDARD := by decide

/-- Claim C9, amended: both strategy selectors are fixed total mappings — the ADK
selector maps Low/Medium/High to Lean/ChainOfThought/StepBack, while the
backend config maps Low/Medium/High/VeryHigh to
Standard/ChainOfThought/StepBack/MultiAgent and yields Standard for every
tier when adaptive reasoning is disabled. -/
theorem strategy_mapping_total :
    (select_strategy .LOW = .LEAN ∧ select_strategy .MEDIUM = .COT
      ∧ select_strategy .HIGH = .STEP_BACK)
    ∧ (get_reasoning_strategy true .LOW = .STANDARD
      ∧ get_reasoning_strategy true .MEDIUM = .COT
      ∧ get_reasoning_strategy true .HIGH = .STEP_BACK
      ∧ get_reasoning_strategy true .VERY_HIGH = .MULTI_AGENT)
    ∧ (∀ c : ComplexityLevel4, get_reasoning_strategy false c = .STANDARD) :=
  ⟨⟨rfl, rfl, rfl⟩, ⟨rfl, rfl, rfl, rfl⟩, fun c => by cases c <;> rfl⟩

/-- Claim C10: every phase returned by `detect_semantic_transition` is in the
adjacency list of the current phase, so a detected semantic transition
always passes the `can_transition` legality check. -/
theorem semantic_transition_always_legal (p : InterviewState) (u : String)
    (t : InterviewState) (h : detect_semantic_transition p u = some t) :
    can_transition p t = true := by
  cases p with
  | CONFIGURING =>
    simp only [detect_semantic_transition, semantic_triggers, findTriggered] at h
    exact Option.noConfusion h
  | SCOPING =>
    simp only [detect_semantic_transition, semantic_triggers, findTriggered] at h
    split at h
    · cases h
      decide
    · exact Option.noConfusion h
  | ANALYSIS =>
    simp only [detect_semantic_transition, semantic_triggers, findTriggered] at h
    split at h
    · cases h
      decide
    · exact Option.noConfusion h
  | SOLUTIONING =>
    simp only [detect_semantic_transition, semantic_triggers, findTriggered] at h
    split at h
    · cases h
      decide
    · exact Option.noConfusion h
  | METRICS =>
    simp only [detect_semantic_transition, semantic_triggers, findTriggered] at h
    exact Option.noConfusion h
  | CHALLENGING =>
    simp only [detect_semantic_transition, semantic_triggers, findTriggered] at h
    exact Option.noConfusion h
  | REPORT_GENERATION =>
    simp only [detect_semantic_transition, semantic_triggers, findTriggered] at h
    exact Option.noConfusion h
  | END =>
    simp only [detect_semantic_transition, semantic_triggers, findTriggered] at h
    exact Option.noConfusion h

/-- Witness for `semantic_transition_always_legal`: scenario B's utterance
triggers Scoping → Analysis, which is a legal edge. -/
theorem semantic_transition_always_legal_witness :
    detect_semantic_transition .SCOPING
      "Let\x27s discuss the user segments and their pain points" = some .ANALYSIS
    ∧ can_transition .SCOPING .ANALYSIS = true :=
  ⟨by decide,
   semantic_transition_always_legal .SCOPING
     "Let\x27s discuss the user segments and their pain points" .ANALYSIS
     (by decide)⟩

